import Mathlib

/-!
Verification development for the Solanafied frontend orchestration layer.

The JavaScript sources are shallowly embedded:

* JS field values are modelled by `JsVal`; an absent-or-undefined field is
  `Option.none`, so a record field has type `Option JsVal`.
* The session user record manipulated by `mergeUserData` is `UserRec`: the
  three fields the function treats specially are explicit, every other key
  is kept in the `others` map (the JS code copies unknown keys generically).
* Timer-driven loops are modelled by explicit state transformers over
  `AppState`; a scheduled interval timer is `Option` of its period, and each
  tick takes the store read result as an explicit input.
-/

/-- A JavaScript value as used by the session records (null, boolean,
number, string).  An absent or undefined field is represented by `none`
at the `Option JsVal` level. -/
inductive JsVal where
  | vNull : JsVal
  | vBool : Bool → JsVal
  | vNum : ℚ → JsVal
  | vStr : String → JsVal
  deriving DecidableEq, Repr

open JsVal

/-- JS truthiness of a value. -/
def JsVal.truthy : JsVal → Bool
  | vNull => false
  | vBool b => b
  | vNum q => q ≠ 0
  | vStr s => s ≠ ""

/-- Truthiness of a possibly-absent field (undefined is falsy). -/
def optTruthy : Option JsVal → Bool
  | none => false
  | some v => v.truthy

/-- The merge of one field: a defined value in the partial update wins,
otherwise the existing value is kept (`merged[key] = partialUser[key]`
guarded by `!== undefined`). -/
def fieldOv (e p : Option JsVal) : Option JsVal :=
  match p with
  | some v => some v
  | none => e

/-- JS `a || d` where `a` is a possibly-absent field and `d` is a value. -/
def jsOrD (o : Option JsVal) (d : JsVal) : JsVal :=
  match o with
  | some v => if v.truthy then v else d
  | none => d

/-- The session user record: the three fields `mergeUserData` handles
specially, plus a map for every other key (the source copies arbitrary
keys from the partial update). -/
@[ext]
structure UserRec where
  dev_public_key : Option JsVal
  dev_wallet_status : Option JsVal
  dev_wallet_ready_in_seconds : Option JsVal
  others : String → Option JsVal

/-- The empty record `{}` used when `currentUser` is null. -/
def emptyRec : UserRec :=
  { dev_public_key := none
    dev_wallet_status := none
    dev_wallet_ready_in_seconds := none
    others := fun _ => none }

/-- Embedding of `mergeUserData` (src/unnamed/part_002, lines 32-52):
copy every defined field of the partial update over the existing record;
if the merged `dev_wallet_status` is falsy, derive it (`ready` when
`dev_public_key` is truthy, else the existing status or `pending`);
finally carry over `dev_wallet_ready_in_seconds` when the update left it
undefined. -/
def mergeUserData (existing partialUser : UserRec) : UserRec :=
  let dpk := fieldOv existing.dev_public_key partialUser.dev_public_key
  let dws0 := fieldOv existing.dev_wallet_status partialUser.dev_wallet_status
  let dwr0 := fieldOv existing.dev_wallet_ready_in_seconds
      partialUser.dev_wallet_ready_in_seconds
  let dws :=
    if optTruthy dws0 then dws0
    else some (if optTruthy dpk then vStr "ready"
               else jsOrD existing.dev_wallet_status (vStr "pending"))
  let dwr :=
    if partialUser.dev_wallet_ready_in_seconds = none ∧
        existing.dev_wallet_ready_in_seconds ≠ none then
      existing.dev_wallet_ready_in_seconds
    else dwr0
  { dev_public_key := dpk
    dev_wallet_status := dws
    dev_wallet_ready_in_seconds := dwr
    others := fun k => fieldOv (existing.others k) (partialUser.others k) }

/-- One call of `mergeUserData` on the session state: the existing record
is `currentUser || {}` and the result is stored back into `currentUser`. -/
def mergeStep (partialUser : UserRec) (currentUser : Option UserRec) :
    Option UserRec :=
  some (mergeUserData (currentUser.getD emptyRec) partialUser)

lemma fieldOv_idem (e p : Option JsVal) : fieldOv (fieldOv e p) p = fieldOv e p := by
  cases p <;> simp [fieldOv]

lemma jsOrD_truthy (o : Option JsVal) (d : JsVal) (hd : d.truthy = true) :
    (jsOrD o d).truthy = true := by
  cases o with
  | none => simpa [jsOrD]
  | some v =>
    by_cases hv : v.truthy = true <;> simp [jsOrD, hv, hd]

lemma jsOrD_of_truthy (o : Option JsVal) (d : JsVal) (v : JsVal)
    (ho : o = some v) (hv : v.truthy = true) : jsOrD o d = v := by
  subst ho; simp [jsOrD, hv]

lemma fieldOv_some (e : Option JsVal) (v : JsVal) : fieldOv e (some v) = some v := rfl

lemma fieldOv_none (e : Option JsVal) : fieldOv e none = e := by cases e <;> rfl

lemma merge_dpk (E u : UserRec) :
    (mergeUserData E u).dev_public_key =
      fieldOv E.dev_public_key u.dev_public_key := rfl

lemma merge_dws (E u : UserRec) :
    (mergeUserData E u).dev_wallet_status =
      (if optTruthy (fieldOv E.dev_wallet_status u.dev_wallet_status)
       then fieldOv E.dev_wallet_status u.dev_wallet_status
       else some (if optTruthy (fieldOv E.dev_public_key u.dev_public_key)
                  then vStr "ready"
                  else jsOrD E.dev_wallet_status (vStr "pending"))) := rfl

lemma merge_dwr (E u : UserRec) :
    (mergeUserData E u).dev_wallet_ready_in_seconds =
      (if u.dev_wallet_ready_in_seconds = none ∧
          E.dev_wallet_ready_in_seconds ≠ none then
        E.dev_wallet_ready_in_seconds
      else fieldOv E.dev_wallet_ready_in_seconds
        u.dev_wallet_ready_in_seconds) := rfl

lemma merge_others (E u : UserRec) (k : String) :
    (mergeUserData E u).others k = fieldOv (E.others k) (u.others k) := rfl

/-- The status field of any merged record is truthy: either the merged
input status was truthy, or the derivation branch produced the truthy
string `ready` or `pending` (or a truthy existing status). -/
lemma merge_status_truthy (E u : UserRec) :
    optTruthy (mergeUserData E u).dev_wallet_status = true := by
  rw [merge_dws]
  by_cases h : optTruthy (fieldOv E.dev_wallet_status u.dev_wallet_status) = true
  · rw [if_pos h]; exact h
  · rw [if_neg h]
    by_cases hk : optTruthy (fieldOv E.dev_public_key u.dev_public_key) = true
    · rw [if_pos hk]; decide
    · rw [if_neg hk]
      simp only [optTruthy]
      exact jsOrD_truthy _ _ (by decide)

lemma merge_dwr_of_none (E u : UserRec)
    (hu : u.dev_wallet_ready_in_seconds = none) :
    (mergeUserData E u).dev_wallet_ready_in_seconds =
      E.dev_wallet_ready_in_seconds := by
  rcases hE : E.dev_wallet_ready_in_seconds with _ | w <;>
    simp [merge_dwr, hu, hE, fieldOv_none]

/-- Applying `mergeUserData` with the same partial update twice in a row
gives the same record as applying it once. -/
lemma mergeUserData_twice (E u : UserRec) :
    mergeUserData (mergeUserData E u) u = mergeUserData E u := by
  have hstat : optTruthy (mergeUserData E u).dev_wallet_status = true :=
    merge_status_truthy E u
  apply UserRec.ext
  · rw [merge_dpk, merge_dpk, fieldOv_idem]
  · -- the status component
    rw [merge_dws (mergeUserData E u) u]
    rcases hu : u.dev_wallet_status with _ | v
    · -- undefined update status: the merged (truthy) status is kept as is
      rw [fieldOv_none, if_pos hstat]
    · by_cases hv : v.truthy = true
      · -- a truthy supplied status wins both times
        rw [fieldOv_some]
        have hvv : optTruthy (some v) = true := by simpa [optTruthy] using hv
        rw [if_pos hvv, merge_dws, hu, fieldOv_some, if_pos hvv]
      · -- a falsy supplied status forces the derivation branch both times
        have hvv : ¬optTruthy (some v) = true := by simpa [optTruthy] using hv
        have hdpk : fieldOv (mergeUserData E u).dev_public_key u.dev_public_key =
            fieldOv E.dev_public_key u.dev_public_key := by
          rw [merge_dpk, fieldOv_idem]
        have h1 : (mergeUserData E u).dev_wallet_status =
            some (if optTruthy (fieldOv E.dev_public_key u.dev_public_key)
                  then vStr "ready"
                  else jsOrD E.dev_wallet_status (vStr "pending")) := by
          rw [merge_dws, hu, fieldOv_some, if_neg hvv]
        rw [fieldOv_some, if_neg hvv, hdpk, h1]
        by_cases hk : optTruthy (fieldOv E.dev_public_key u.dev_public_key) = true
        · rw [if_pos hk, if_pos hk]
        · rw [if_neg hk, if_neg hk]
          congr 1
          exact jsOrD_of_truthy _ _ _ rfl (jsOrD_truthy _ _ (by decide))
  · -- the eta-seconds component
    rcases hu : u.dev_wallet_ready_in_seconds with _ | v
    · rw [merge_dwr_of_none _ _ hu, merge_dwr_of_none _ _ hu]
    · rw [merge_dwr, merge_dwr, hu]
      simp [fieldOv_some]
  · -- every other key: defined update fields win both times
    funext k
    rw [merge_others, merge_others, fieldOv_idem]

/-- Claim C1: the session-record merge is idempotent.  For every partial
user update `u` and every current session state (a possibly-null
`currentUser` record), applying the `mergeUserData` step twice yields
the same session record as applying it once, so duplicated notification
delivery or repeated identical store reads leave the record unchanged
after the first application. -/
theorem mergeUserData_idempotent (u : UserRec) (s : Option UserRec) :
    mergeStep u (mergeStep u s) = mergeStep u s := by
  simp only [mergeStep, Option.getD_some]
  rw [mergeUserData_twice]

lemma jsOrD_of_falsy (o : Option JsVal) (d : JsVal)
    (h : optTruthy o = false) : jsOrD o d = d := by
  cases o with
  | none => rfl
  | some v => simp only [optTruthy] at h; simp [jsOrD, h]

/-- A partial update that supplies only a status field claiming readiness,
with no developer public key. -/
def readyOnlyUpdate : UserRec :=
  { dev_public_key := none
    dev_wallet_status := some (vStr "ready")
    dev_wallet_ready_in_seconds := none
    others := fun _ => none }

/-- Claim C7 counterexample: merging an update that carries
`dev_wallet_status = "ready"` but no `dev_public_key` into an empty
session record produces a record whose status is `ready` while the key
is null, so the claimed status-iff-key invariant fails: the status is
accepted as authoritative, not recomputed from the key. -/
theorem merge_status_not_derived_counterexample :
    ¬(((mergeUserData emptyRec readyOnlyUpdate).dev_wallet_status =
        some (vStr "ready")) ↔
      (mergeUserData emptyRec readyOnlyUpdate).dev_public_key ≠ none) := by
  decide

/-- Claim C7 (amended): the status is derived from the key only when no
truthy status is supplied.  Whenever neither the existing record nor the
partial update carries a truthy `dev_wallet_status`, the merged status
equals `ready` exactly when the merged `dev_public_key` is truthy; a
truthy supplied status is accepted as-is and may disagree with the key. -/
theorem merge_status_derived_when_not_supplied (E u : UserRec)
    (hE : optTruthy E.dev_wallet_status = false)
    (hu : optTruthy u.dev_wallet_status = false) :
    ((mergeUserData E u).dev_wallet_status = some (vStr "ready") ↔
      optTruthy (mergeUserData E u).dev_public_key = true) := by
  have h0 : optTruthy (fieldOv E.dev_wallet_status u.dev_wallet_status) = false := by
    rcases hud : u.dev_wallet_status with _ | v
    · rw [fieldOv_none]; exact hE
    · rw [fieldOv_some]; rw [hud] at hu; exact hu
  have hpend : jsOrD E.dev_wallet_status (vStr "pending") = vStr "pending" :=
    jsOrD_of_falsy _ _ hE
  rw [merge_dws, if_neg (by simp [h0]), hpend, merge_dpk]
  by_cases hk : optTruthy (fieldOv E.dev_public_key u.dev_public_key) = true
  · rw [if_pos hk]
    simp [hk]
  · rw [if_neg hk]
    simp only [hk]
    decide

/- ========== Remote job client timeouts (src/orchestrator.js) ========== -/

/-- The `API_TIMEOUT` constant of orchestrator.js: 30000 ms. -/
def API_TIMEOUT : ℚ := 30000

/-- Embedding of `getBundlerTimeoutMs` (src/orchestrator.js, lines 14-54):
a `NaN` input is `none`; for `NaN` or a non-positive balance the fallback
`API_TIMEOUT * 4` is returned, otherwise `ceil(balance) * 150000`.  (The
`verifyDevWalletBalance` declaration nested inside the source function is
hoisted and never executed there, so it does not affect the result.) -/
def getBundlerTimeoutMs (bundlerBalance : Option ℚ) : ℚ :=
  match bundlerBalance with
  | none => API_TIMEOUT * 4
  | some q => if q ≤ 0 then API_TIMEOUT * 4 else (⌈q⌉ : ℚ) * 150000

/-- The request payload and client timeout assembled by `createBundler`
(src/orchestrator.js, lines 235-253). -/
structure BundlerRequest where
  user_wallet_id : String
  bundler_balance : Option ℚ
  idempotency_key : Option String
  timeoutMs : ℚ
  deriving DecidableEq, Repr

/-- Embedding of the submission part of `createBundler`: the payload
carries the parsed balance, the idempotency key only when it is truthy,
and the request is issued with `getBundlerTimeoutMs` of the balance as
the client timeout. -/
def createBundlerRequest (userWalletId : String) (bundlerBalance : Option ℚ)
    (idempotencyKey : Option String) : BundlerRequest :=
  { user_wallet_id := userWalletId
    bundler_balance := bundlerBalance
    idempotency_key :=
      match idempotencyKey with
      | some s => if s = "" then none else some s
      | none => none
    timeoutMs := getBundlerTimeoutMs bundlerBalance }

/-- Claim C2: for a bundle-creation submission with integer workload
`N ≥ 1` the client timeout equals `max(120000, N * 150000)` (so for
`N = 5` it is exactly `750000` ms, never less), and for a `NaN` or
non-positive balance the timeout is the 120000 ms floor. -/
theorem bundler_timeout_eq_max (uid : String) (k : Option String) (N : ℤ)
    (hN : 1 ≤ N) :
    (createBundlerRequest uid (some (N : ℚ)) k).timeoutMs =
        max 120000 ((N : ℚ) * 150000) ∧
    (createBundlerRequest uid (some (5 : ℚ)) k).timeoutMs = 5 * 150000 ∧
    (createBundlerRequest uid none k).timeoutMs = 120000 ∧
    ∀ q : ℚ, q ≤ 0 → (createBundlerRequest uid (some q) k).timeoutMs = 120000 := by
  refine ⟨?_, ?_, ?_, ?_⟩
  · have hq : (1 : ℚ) ≤ (N : ℚ) := by exact_mod_cast hN
    have hpos : ¬((N : ℚ) ≤ 0) := by linarith
    have hbig : (120000 : ℚ) ≤ (N : ℚ) * 150000 := by nlinarith
    simp only [createBundlerRequest, getBundlerTimeoutMs, if_neg hpos,
      Int.ceil_intCast]
    rw [max_eq_right hbig]
  · have hpos : ¬((5 : ℚ) ≤ 0) := by norm_num
    simp only [createBundlerRequest, getBundlerTimeoutMs, if_neg hpos]
    norm_num
  · simp only [createBundlerRequest, getBundlerTimeoutMs, API_TIMEOUT]
    norm_num
  · intro q hq
    simp only [createBundlerRequest, getBundlerTimeoutMs, if_pos hq, API_TIMEOUT]
    norm_num

/-- Claim C2 witness: the theorem applied at workload `N = 5`. -/
theorem bundler_timeout_eq_max_witness :
    (1 : ℤ) ≤ 5 ∧
    (createBundlerRequest "X" (some ((5 : ℤ) : ℚ)) none).timeoutMs =
      max 120000 (((5 : ℤ) : ℚ) * 150000) :=
  ⟨by norm_num, (bundler_timeout_eq_max "X" none 5 (by norm_num)).1⟩

/-- Claim C3: the computed timeout is monotone in the workload, and the
fallback value taken for `NaN` or non-positive inputs never exceeds the
timeout of any other input. -/
theorem bundler_timeout_monotone :
    (∀ q1 q2 : ℚ, q1 < q2 →
      getBundlerTimeoutMs (some q1) ≤ getBundlerTimeoutMs (some q2)) ∧
    (∀ x : Option ℚ, getBundlerTimeoutMs none ≤ getBundlerTimeoutMs x) := by
  have hfloor : ∀ q : ℚ, ¬(q ≤ 0) →
      (120000 : ℚ) ≤ (⌈q⌉ : ℚ) * 150000 := by
    intro q hq
    have h1 : (0 : ℤ) < ⌈q⌉ := Int.ceil_pos.mpr (lt_of_not_le hq)
    have h2 : (1 : ℚ) ≤ (⌈q⌉ : ℚ) := by exact_mod_cast h1
    nlinarith
  constructor
  · intro q1 q2 h
    by_cases h2 : q2 ≤ 0
    · have h1 : q1 ≤ 0 := le_trans h.le h2
      simp [getBundlerTimeoutMs, if_pos h1, if_pos h2]
    · by_cases h1 : q1 ≤ 0
      · simp only [getBundlerTimeoutMs, if_pos h1, if_neg h2, API_TIMEOUT]
        have := hfloor q2 h2
        linarith
      · simp only [getBundlerTimeoutMs, if_neg h1, if_neg h2]
        have hc : ⌈q1⌉ ≤ ⌈q2⌉ := Int.ceil_le_ceil h.le
        have hc2 : ((⌈q1⌉ : ℚ)) ≤ ((⌈q2⌉ : ℚ)) := by exact_mod_cast hc
        nlinarith
  · intro x
    match x with
    | none => exact le_refl _
    | some q =>
      by_cases hq : q ≤ 0
      · simp [getBundlerTimeoutMs, if_pos hq]
      · simp only [getBundlerTimeoutMs, if_neg hq, API_TIMEOUT]
        have := hfloor q hq
        linarith

/-- Claim C3 witness: monotonicity applied across the fallback branch at
concrete workloads. -/
theorem bundler_timeout_monotone_witness :
    ((-1 : ℚ) < 2) ∧
    getBundlerTimeoutMs (some (-1)) ≤ getBundlerTimeoutMs (some 2) ∧
    getBundlerTimeoutMs none ≤ getBundlerTimeoutMs (some 2) :=
  ⟨by norm_num, bundler_timeout_monotone.1 (-1) 2 (by norm_num),
    bundler_timeout_monotone.2 (some 2)⟩

/- ========== Dev-wallet poller and session teardown (part_002) ========== -/

/-- The global session state of part_002: the connected wallet, the
session user record, the subscription list, and the two interval timers.
A scheduled interval is `some period`; `none` means no timer. -/
structure AppState where
  currentWallet : Option String
  currentUser : Option UserRec
  isConnected : Bool
  subscriptions : List ℕ
  devWalletPollInterval : Option ℚ
  isDevWalletPolling : Bool
  bundlerProgressInterval : Option ℚ
  bundlerProgressPhase : ℕ

/-- The `DEV_WALLET_POLL_INTERVAL_MS` constant. -/
def DEV_WALLET_POLL_INTERVAL_MS : ℚ := 20000

/-- JS nullish test (`undefined` or `null`). -/
def nullish : Option JsVal → Bool
  | none => true
  | some vNull => true
  | some _ => false

/-- JS `a ?? b`. -/
def coalesce (a b : Option JsVal) : Option JsVal :=
  if nullish a then b else a

/-- Numeric reading of the eta field used by `startDevWalletPolling`:
`(currentUser?.dev_wallet_ready_in_seconds || 0)`.  The field is a
number or null by the creation-response mapping, so non-numeric values
coerce to the fallback 0. -/
def etaSecondsOf : Option JsVal → ℚ
  | some (vNum q) => q
  | _ => 0

/-- Embedding of `stopDevWalletPolling` (part_002, lines 330-336): the
interval timer is cleared and the polling flag reset. -/
def stopDevWalletPolling (s : AppState) : AppState :=
  { s with devWalletPollInterval := none, isDevWalletPolling := false }

/-- Embedding of `closeBundlerProgressModal` (part_002, lines 174-184):
clears the bundler progress interval and resets the phase. -/
def closeBundlerProgressModal (s : AppState) : AppState :=
  { s with bundlerProgressInterval := none, bundlerProgressPhase := 0 }

/-- Embedding of `startDevWalletPolling` (part_002, lines 319-328): stop
any previous loop, set the polling flag, fire one immediate poll (the
returned Bool records that a further store read was scheduled), and arm
an interval of `max(20000, etaMs || 20000)`. -/
def startDevWalletPolling (s : AppState) : AppState × Bool :=
  if s.currentUser.isNone then (s, false)
  else
    let s1 := stopDevWalletPolling s
    let etaMs : ℚ :=
      etaSecondsOf (s.currentUser.bind
        (fun r => r.dev_wallet_ready_in_seconds)) * 1000
    let interval : ℚ :=
      max DEV_WALLET_POLL_INTERVAL_MS
        (if etaMs = 0 then DEV_WALLET_POLL_INTERVAL_MS else etaMs)
    ({ s1 with
        isDevWalletPolling := true
        devWalletPollInterval := some interval }, true)

/-- Embedding of `updateDevWalletStatus` (part_002, lines 338-358): the
displayed status is the status supplied by the record, or else derived
from the key (or carried from the session); the result is merged into
the session record; polling stops only when the status is the string
`ready` and the key is truthy, otherwise polling is (re)started.  The
Bool records whether a further store read was scheduled. -/
def updateDevWalletStatus (user : Option UserRec) (s : AppState) :
    AppState × Bool :=
  match user with
  | none => (s, false)
  | some u =>
    let status : JsVal :=
      jsOrD u.dev_wallet_status
        (if optTruthy u.dev_public_key then vStr "ready"
         else jsOrD (s.currentUser.bind (fun r => r.dev_wallet_status))
           (vStr "pending"))
    let eta0 : Option JsVal :=
      coalesce u.dev_wallet_ready_in_seconds
        (s.currentUser.bind (fun r => r.dev_wallet_ready_in_seconds))
    let eta : Option JsVal := if nullish eta0 then some vNull else eta0
    let upd : UserRec :=
      { dev_public_key := u.dev_public_key
        dev_wallet_status := some status
        dev_wallet_ready_in_seconds := eta
        others := fun _ => none }
    let s1 : AppState := { s with currentUser := mergeStep upd s.currentUser }
    if status = vStr "ready" ∧ optTruthy u.dev_public_key = true then
      (stopDevWalletPolling s1, false)
    else
      startDevWalletPolling s1

/-- Embedding of one `pollForDevWallet` tick (part_002, lines 301-317):
`latest` is the store read result of this tick (`none` for a missing
record or a read failure); the record is merged into the session, and
when its key is truthy `updateDevWalletStatus` runs.  The Bool records
whether a further immediate store read was scheduled by a restart. -/
def pollForDevWallet (latest : Option UserRec) (s : AppState) :
    AppState × Bool :=
  if s.currentUser.isNone then (s, false)
  else
    match latest with
    | none => (s, false)
    | some u =>
      let s1 := { s with currentUser := mergeStep u s.currentUser }
      if optTruthy u.dev_public_key then updateDevWalletStatus (some u) s1
      else (s1, false)

/-- Embedding of `disconnectWallet` (part_002, lines 619-648): the
subscriptions are released and the session identity reset; the two
interval timers are not touched (the UI helpers it calls only mutate the
document). -/
def disconnectWallet (s : AppState) : AppState :=
  { s with
      subscriptions := []
      currentWallet := none
      currentUser := none
      isConnected := false }

/-- A concrete session with an active dev-wallet poll loop and an active
bundler progress timer. -/
def activeSession : AppState :=
  { currentWallet := some "W"
    currentUser := some emptyRec
    isConnected := true
    subscriptions := [1]
    devWalletPollInterval := some 20000
    isDevWalletPolling := true
    bundlerProgressInterval := some 90000
    bundlerProgressPhase := 1 }

/-- A store record whose developer key is set but whose stored status
still reads `pending`. -/
def pendingKeyRecord : UserRec :=
  { dev_public_key := some (vStr "K")
    dev_wallet_status := some (vStr "pending")
    dev_wallet_ready_in_seconds := none
    others := fun _ => none }

/-- Claim C5 counterexample: a poll tick that observes a record with a
non-null `dev_public_key` but a stored status `pending` does not stop
the loop: the interval timer stays armed and a further immediate store
read is scheduled by the restart, refuting the claim that observing a
non-null key clears the timer and ends the store reads. -/
theorem poll_not_stopped_counterexample :
    ¬((pollForDevWallet (some pendingKeyRecord) activeSession).1.devWalletPollInterval
        = none ∧
      (pollForDevWallet (some pendingKeyRecord) activeSession).2 = false) := by
  intro h
  have h2 : (pollForDevWallet (some pendingKeyRecord) activeSession).2 = true := by
    decide
  rw [h2] at h
  exact absurd h.2 (by decide)

lemma updateDevWalletStatus_stops (u : UserRec) (s : AppState)
    (hkey : optTruthy u.dev_public_key = true)
    (hst : optTruthy u.dev_wallet_status = false ∨
      u.dev_wallet_status = some (vStr "ready")) :
    (updateDevWalletStatus (some u) s).1.devWalletPollInterval = none ∧
    (updateDevWalletStatus (some u) s).1.isDevWalletPolling = false ∧
    (updateDevWalletStatus (some u) s).2 = false := by
  have hstatus :
      jsOrD u.dev_wallet_status
        (if optTruthy u.dev_public_key = true then vStr "ready"
         else jsOrD (s.currentUser.bind (fun r => r.dev_wallet_status))
           (vStr "pending")) = vStr "ready" := by
    rcases hst with hst | hst
    · rw [jsOrD_of_falsy _ _ hst, if_pos hkey]
    · exact jsOrD_of_truthy _ _ _ hst (by decide)
  simp only [updateDevWalletStatus]
  rw [if_pos ⟨hstatus, hkey⟩]
  exact ⟨rfl, rfl, rfl⟩

/-- Claim C5 (amended): once a poll tick observes a record whose
`dev_public_key` is truthy and whose stored status is falsy (absent) or
exactly `ready`, the poll loop stops: the interval timer is cleared, the
polling flag is reset, and no further store read is scheduled until a
new poll is explicitly started.  A record carrying a truthy status other
than `ready` restarts the loop instead. -/
theorem poll_stops_on_ready_key (s : AppState) (u : UserRec)
    (hcu : s.currentUser.isNone = false)
    (hkey : optTruthy u.dev_public_key = true)
    (hst : optTruthy u.dev_wallet_status = false ∨
      u.dev_wallet_status = some (vStr "ready")) :
    (pollForDevWallet (some u) s).1.devWalletPollInterval = none ∧
    (pollForDevWallet (some u) s).1.isDevWalletPolling = false ∧
    (pollForDevWallet (some u) s).2 = false := by
  simp only [pollForDevWallet, hcu, Bool.false_eq_true, if_false, hkey,
    if_true]
  exact updateDevWalletStatus_stops u _ hkey hst

/-- Claim C5 amended witness: a concrete tick observing a record with a
truthy key and no stored status stops the loop of the active session. -/
theorem poll_stops_on_ready_key_witness :
    activeSession.currentUser.isNone = false ∧
    (pollForDevWallet (some
      { dev_public_key := some (vStr "K")
        dev_wallet_status := none
        dev_wallet_ready_in_seconds := none
        others := fun _ => none }) activeSession).1.devWalletPollInterval = none :=
  ⟨rfl,
    (poll_stops_on_ready_key activeSession _ rfl (by decide)
      (Or.inl (by decide))).1⟩

/- ========== Re-entrant primary-account creation (part_002) ========== -/

/-- The user-visible resolution of a `handleCreateInAppWallet` call. -/
inductive CreateOutcome where
  | alreadyProvisioned : CreateOutcome
  | created : CreateOutcome
  | recoveredExisting : CreateOutcome
  | failed : CreateOutcome
  deriving DecidableEq, Repr

/-- Result of a creation call: the outcome shown to the user and whether
a creation request was actually submitted to the orchestrator. -/
structure CreateCallResult where
  outcome : CreateOutcome
  submittedCreate : Bool
  deriving DecidableEq, Repr

/-- Truthiness of the `distributor_public_key` field of a record. -/
def distributorKeyTruthy (r : UserRec) : Bool :=
  optTruthy (r.others "distributor_public_key")

/-- The marker the backend puts in the duplicate-creation error. -/
def alreadyExistsMarker : String := "already has an in-app wallet"

/-- Embedding of `handleCreateInAppWallet` (part_002, lines 1142-1218).
Inputs beyond the session state are the oracles for the externals:
`freshRead` is the store read performed when no local record exists,
`createCall` the orchestrator creation call (mapped partial update on
success, exception message on failure), `recoveryRead` the store read of
the catch path.  Returns the call result and the new `currentUser`. -/
def handleCreateInAppWallet (connected : Bool) (cu freshRead : Option UserRec)
    (createCall : Except String UserRec) (recoveryRead : Option UserRec) :
    CreateCallResult × Option UserRec :=
  if !connected then ({ outcome := .failed, submittedCreate := false }, cu)
  else
    let existing : Option UserRec :=
      match cu with
      | some u => some u
      | none => freshRead
    let cu1 : Option UserRec :=
      match cu with
      | some _ => cu
      | none =>
        match freshRead with
        | some r => mergeStep r cu
        | none => cu
    let proceed : CreateCallResult × Option UserRec :=
      match createCall with
      | .ok resp =>
        ({ outcome := .created, submittedCreate := true }, mergeStep resp cu1)
      | .error msg =>
        if (msg.splitOn alreadyExistsMarker).length > 1 then
          match recoveryRead with
          | some latest =>
            if distributorKeyTruthy latest then
              ({ outcome := .recoveredExisting, submittedCreate := true },
                mergeStep latest cu1)
            else ({ outcome := .failed, submittedCreate := true }, cu1)
          | none => ({ outcome := .failed, submittedCreate := true }, cu1)
        else ({ outcome := .failed, submittedCreate := true }, cu1)
    match existing with
    | some u =>
      if distributorKeyTruthy u then
        ({ outcome := .alreadyProvisioned, submittedCreate := false }, cu1)
      else proceed
    | none => proceed

/-- Claim C4: a re-entrant primary-account creation call is idempotent.
If a distributor record already exists for the identity — found in local
optimistic state or, failing that, by a fresh store read — then
`handleCreateInAppWallet` resolves to the informational already
provisioned outcome without submitting a new creation request and
without surfacing an error. -/
theorem create_wallet_reentrant_idempotent (cu freshRead : Option UserRec)
    (u : UserRec) (createCall : Except String UserRec)
    (recoveryRead : Option UserRec)
    (hfound : cu = some u ∨ (cu = none ∧ freshRead = some u))
    (hkey : distributorKeyTruthy u = true) :
    (handleCreateInAppWallet true cu freshRead createCall recoveryRead).1.outcome
        = CreateOutcome.alreadyProvisioned ∧
    (handleCreateInAppWallet true cu freshRead createCall
        recoveryRead).1.submittedCreate = false := by
  rcases hfound with h | ⟨h1, h2⟩
  · subst h
    simp [handleCreateInAppWallet, hkey]
  · subst h1; subst h2
    simp [handleCreateInAppWallet, hkey]

/-- A local session record that already carries a distributor key. -/
def provisionedLocalRec : UserRec :=
  { dev_public_key := none
    dev_wallet_status := none
    dev_wallet_ready_in_seconds := none
    others := fun k =>
      if k = "distributor_public_key" then some (vStr "D") else none }

/-- Claim C4 witness: a session whose local record already carries a
distributor key resolves to already provisioned without submitting. -/
theorem create_wallet_reentrant_idempotent_witness :
    distributorKeyTruthy provisionedLocalRec = true ∧
    (handleCreateInAppWallet true (some provisionedLocalRec) none
        (Except.error "boom") none).1.outcome
        = CreateOutcome.alreadyProvisioned ∧
    (handleCreateInAppWallet true (some provisionedLocalRec) none
        (Except.error "boom") none).1.submittedCreate = false :=
  ⟨by decide,
    (create_wallet_reentrant_idempotent (some provisionedLocalRec) none
      provisionedLocalRec (Except.error "boom") none (Or.inl rfl)
      (by decide)).1,
    (create_wallet_reentrant_idempotent (some provisionedLocalRec) none
      provisionedLocalRec (Except.error "boom") none (Or.inl rfl)
      (by decide)).2⟩

/- ========== Idempotency-key generation (part_002, 1347-1354) ========== -/

/-- The hex digit of a nibble, as produced by `v.toString(16)` for `v`
in 0..15. -/
def hexDigit (n : ℕ) : Char := Nat.digitChar n

/-- A lower-case hexadecimal digit character. -/
def isHexDigitChar (c : Char) : Bool :=
  ('0' ≤ c && c ≤ '9') || ('a' ≤ c && c ≤ 'f')

/-- The template string of `generateIdempotencyKey`. -/
def uuidTemplate : List Char :=
  ['x', 'x', 'x', 'x', 'x', 'x', 'x', 'x', '-',
   'x', 'x', 'x', 'x', '-',
   '4', 'x', 'x', 'x', '-',
   'y', 'x', 'x', 'x', '-',
   'x', 'x', 'x', 'x', 'x', 'x', 'x', 'x', 'x', 'x', 'x', 'x']

/-- The per-character replacement of `generateIdempotencyKey`: each `x`
or `y` consumes one `Math.random() * 16 | 0` draw (the stream `rand`,
reduced mod 16); an `x` becomes the random nibble, a `y` becomes
`(r & 0x3) | 0x8`; every other character is kept. -/
def replaceUuidChars : List Char → ℕ → (ℕ → ℕ) → List Char
  | [], _, _ => []
  | c :: rest, k, rand =>
    if c = 'x' then
      hexDigit (rand k % 16) :: replaceUuidChars rest (k + 1) rand
    else if c = 'y' then
      hexDigit ((rand k % 16) &&& 3 ||| 8) :: replaceUuidChars rest (k + 1) rand
    else c :: replaceUuidChars rest k rand

/-- Embedding of `generateIdempotencyKey` (part_002, lines 1347-1354),
with the `Math.random` draws supplied as an explicit stream. -/
def generateIdempotencyKey (rand : ℕ → ℕ) : String :=
  String.mk (replaceUuidChars uuidTemplate 0 rand)

/-- Checker written from the words of the claim: 36 characters in
8-4-4-4-12 form (dashes at positions 8, 13, 18 and 23), the version
nibble `4` at position 14, a variant nibble in 8, 9, a, b at position
19, and lower-case hex digits everywhere else. -/
def uuidCheckAux : ℕ → List Char → Bool
  | i, [] => i == 36
  | i, c :: rest =>
    (if i == 8 || i == 13 || i == 18 || i == 23 then c == '-'
     else if i == 14 then c == '4'
     else if i == 19 then ['8', '9', 'a', 'b'].contains c
     else isHexDigitChar c) && uuidCheckAux (i + 1) rest

/-- A string is a v4 UUID in the sense of the claim. -/
def isV4UuidKey (s : String) : Bool := uuidCheckAux 0 s.data

lemma generateIdempotencyKey_v4 (rand : ℕ → ℕ) :
    isV4UuidKey (generateIdempotencyKey rand) = true := by
  have hx : ∀ n : ℕ, isHexDigitChar (hexDigit (n % 16)) = true := by
    intro n
    have h : n % 16 < 16 := Nat.mod_lt _ (by norm_num)
    have aux : ∀ m : ℕ, m < 16 → isHexDigitChar (hexDigit m) = true := by decide
    exact aux _ h
  have hy : ∀ n : ℕ,
      hexDigit ((n % 16) &&& 3 ||| 8) = '8' ∨
      hexDigit ((n % 16) &&& 3 ||| 8) = '9' ∨
      hexDigit ((n % 16) &&& 3 ||| 8) = 'a' ∨
      hexDigit ((n % 16) &&& 3 ||| 8) = 'b' := by
    intro n
    have h : n % 16 < 16 := Nat.mod_lt _ (by norm_num)
    have aux : ∀ m : ℕ, m < 16 →
        hexDigit (m &&& 3 ||| 8) = '8' ∨ hexDigit (m &&& 3 ||| 8) = '9' ∨
        hexDigit (m &&& 3 ||| 8) = 'a' ∨ hexDigit (m &&& 3 ||| 8) = 'b' := by
      decide
    exact aux _ h
  simp [generateIdempotencyKey, uuidTemplate, replaceUuidChars, isV4UuidKey,
    uuidCheckAux, hx]
  exact hy (rand 15)

/-- The full submission path of the UI `createBundler` (part_002, lines
2127-2197): no key is supplied by the caller, so one is generated and
passed to the orchestrator-level `createBundler`. -/
def submitCreateBundlerFlow (uid : String) (balance : Option ℚ)
    (rand : ℕ → ℕ) : BundlerRequest :=
  createBundlerRequest uid balance (some (generateIdempotencyKey rand))

/-- Claim C9: a bundle-creation submission made with no idempotency key
supplied generates a v4 UUID key (36 characters in 8-4-4-4-12 form,
version nibble `4`, variant nibble in 8, 9, a, b) and includes it in the
request payload sent to the remote service. -/
theorem createBundler_generates_v4_key (uid : String) (balance : Option ℚ)
    (rand : ℕ → ℕ) :
    (submitCreateBundlerFlow uid balance rand).idempotency_key
        = some (generateIdempotencyKey rand) ∧
    isV4UuidKey (generateIdempotencyKey rand) = true := by
  constructor
  · have hne : ¬generateIdempotencyKey rand = "" := by
      intro h
      have hv := generateIdempotencyKey_v4 rand
      rw [h] at hv
      exact absurd hv (by decide)
    simp [submitCreateBundlerFlow, createBundlerRequest, hne]
  · exact generateIdempotencyKey_v4 rand

/- ========== Transport classification (orchestrator.js, 61-137) ========== -/

/-- A thrown JavaScript error: its constructor name and message. -/
structure JsError where
  name : String
  message : String
  deriving DecidableEq, Repr

/-- The structured (JSON) response body fields the classifier reads:
`error.message` and the top-level `message`. -/
structure JsonBody where
  errMessage : Option String
  topMessage : Option String
  deriving DecidableEq, Repr

instance : DecidableEq (Except JsError JsonBody)
  | .ok a, .ok b =>
    if h : a = b then .isTrue (by rw [h])
    else .isFalse (by intro hh; cases hh; exact h rfl)
  | .ok _, .error _ => .isFalse (by intro hh; cases hh)
  | .error _, .ok _ => .isFalse (by intro hh; cases hh)
  | .error a, .error b =>
    if h : a = b then .isTrue (by rw [h])
    else .isFalse (by intro hh; cases hh; exact h rfl)

/-- Outcome of the underlying `fetch` call: a rejection (network error,
cross-origin denial, or abort on timeout), or a response with its
status, content type, raw body text, and the result of parsing the body
as JSON. -/
inductive FetchOutcome where
  | reject (e : JsError) : FetchOutcome
  | resp (ok : Bool) (status : ℕ) (statusText : String)
      (contentType : Option String) (bodyText : String)
      (json : Except JsError JsonBody) : FetchOutcome
  deriving DecidableEq, Repr

/-- Char-list substring occurrence. -/
def listIncludes (pat : List Char) : List Char → Bool
  | [] => List.isPrefixOf pat []
  | c :: rest => List.isPrefixOf pat (c :: rest) || listIncludes pat rest

/-- JS `s.includes(pat)`. -/
def strIncludes (s pat : String) : Bool := listIncludes pat.data s.data

/-- JS `a || d` on an optional string and a string default. -/
def jsStrOr (a : Option String) (d : String) : String :=
  match a with
  | some m => if m = "" then d else m
  | none => d

/-- The fixed timeout message thrown for an `AbortError`. -/
def TIMEOUT_MESSAGE : String := "Request timed out. Please try again."

/-- The fixed cross-origin message thrown for a fetch `TypeError`. -/
def CORS_MESSAGE : String :=
  "CORS error: Backend is not allowing requests from this domain. Check backend CORS configuration."

/-- The server-rejection message: `error.message`, else the top-level
`message`, else the HTTP status fallback. -/
def errorMessageFor (status : ℕ) (statusText : String) (b : JsonBody) : String :=
  jsStrOr b.errMessage
    (jsStrOr b.topMessage ("HTTP " ++ toString status ++ ": " ++ statusText))

/-- The content-type guard: the header must be truthy and must include
the substring application/json. -/
def contentTypeOk (contentType : Option String) : Bool :=
  match contentType with
  | none => false
  | some ct => if ct = "" then false else strIncludes ct "application/json"

/-- The raw-text error thrown for a non-JSON body (the message embeds the
first 200 characters of the body). -/
def nonJsonError (bodyText : String) : JsError :=
  ⟨"Error", "Server returned non-JSON response: " ++
    String.mk (bodyText.data.take 200)⟩

/-- The try-block of `makeOrchestratorRequest` (orchestrator.js, lines
61-111): a fetch rejection propagates; a response whose content type is
absent or does not include `application/json` throws the raw-text error;
a JSON parse failure propagates; a non-ok status throws the
server-rejection message. -/
def makeOrchestratorRequestTry (f : FetchOutcome) : Except JsError JsonBody :=
  match f with
  | .reject e => .error e
  | .resp ok status statusText contentType bodyText json =>
    if !contentTypeOk contentType then .error (nonJsonError bodyText)
    else
      match json with
      | .error pe => .error pe
      | .ok b =>
        if !ok then .error ⟨"Error", errorMessageFor status statusText b⟩
        else .ok b

/-- The catch-block of `makeOrchestratorRequest` (orchestrator.js, lines
112-136): an `AbortError` becomes the fixed timeout message, a fetch
`TypeError` the fixed cross-origin message, everything else is rethrown
unchanged. -/
def applyCatch (r : Except JsError JsonBody) : Except JsError JsonBody :=
  match r with
  | .ok b => .ok b
  | .error e =>
    if e.name = "AbortError" then .error ⟨"Error", TIMEOUT_MESSAGE⟩
    else if e.name = "TypeError" ∧ strIncludes e.message "fetch" = true then
      .error ⟨"Error", CORS_MESSAGE⟩
    else .error e

/-- Embedding of `makeOrchestratorRequest` (orchestrator.js, 61-137). -/
def makeOrchestratorRequest (f : FetchOutcome) : Except JsError JsonBody :=
  applyCatch (makeOrchestratorRequestTry f)

/-- SERVER_REJECTED in the sense of the claim: the surfaced message is
derived from the structured response body (or the HTTP status line),
never from raw transport text. -/
def specServerRejected (f : FetchOutcome) (e : JsError) : Prop :=
  ∃ ok status statusText ct bodyText b,
    f = FetchOutcome.resp ok status statusText ct bodyText (Except.ok b) ∧
    e.message = errorMessageFor status statusText b

/-- The four failure categories of the claim, written from its words:
TIMEOUT, CROSS_ORIGIN_DENIED, SERVER_REJECTED with a structured message,
and TRANSIENT_NETWORK (the underlying network rejection surfaced). -/
def specClassified (f : FetchOutcome) (e : JsError) : Prop :=
  e.message = TIMEOUT_MESSAGE ∨ e.message = CORS_MESSAGE ∨
  specServerRejected f e ∨ (∃ e0, f = FetchOutcome.reject e0 ∧ e = e0)

/-- A response whose body was not structured JSON: the thrown error
embeds a raw transport-text prefix. -/
def nonJsonEscape (f : FetchOutcome) (e : JsError) : Prop :=
  ∃ ok status statusText ct bodyText json,
    f = FetchOutcome.resp ok status statusText ct bodyText json ∧
    e = nonJsonError bodyText

/-- A JSON parse failure surfaced unchanged. -/
def parseErrorEscape (f : FetchOutcome) (e : JsError) : Prop :=
  ∃ ok status statusText ct bodyText pe,
    f = FetchOutcome.resp ok status statusText ct bodyText (Except.error pe) ∧
    e = pe

/-- An HTML error page from a gateway: a response whose content type is
`text/html` and whose body is raw HTML. -/
def nonJsonOutcome : FetchOutcome :=
  FetchOutcome.resp true 502 "Bad Gateway" (some "text/html")
    "<html>Bad gateway</html>" (Except.error ⟨"SyntaxError", "Unexpected token"⟩)

/-- Claim C8 counterexample: the non-JSON response branch escapes the
four-category classification — the surfaced error embeds the raw body
text and is none of TIMEOUT, CROSS_ORIGIN_DENIED, SERVER_REJECTED or a
surfaced network rejection. -/
theorem transport_unclassified_counterexample :
    makeOrchestratorRequest nonJsonOutcome =
      Except.error ⟨"Error",
        "Server returned non-JSON response: <html>Bad gateway</html>"⟩ ∧
    ¬specClassified nonJsonOutcome
      ⟨"Error", "Server returned non-JSON response: <html>Bad gateway</html>"⟩ := by
  constructor
  · decide
  · rintro (h | h | h | h)
    · exact absurd h (by decide)
    · exact absurd h (by decide)
    · obtain ⟨ok, st, stt, ct, bt, b, hf, _⟩ := h
      simp [nonJsonOutcome] at hf
    · obtain ⟨e0, hf, _⟩ := h
      simp [nonJsonOutcome] at hf

/-- Claim C8 (amended): every failing outcome of a request through
`makeOrchestratorRequest` is surfaced as one of: the fixed timeout
message, the fixed cross-origin message, a server-rejection message
derived from the structured body or status line, the underlying network
rejection (transient network), a non-JSON-body error embedding a raw
transport-text prefix, or a surfaced JSON parse error.  The last two
escape the four-category classification of the claim. -/
theorem transport_failures_classified (f : FetchOutcome) (e : JsError)
    (h : makeOrchestratorRequest f = Except.error e) :
    e.message = TIMEOUT_MESSAGE ∨ e.message = CORS_MESSAGE ∨
    specServerRejected f e ∨ (∃ e0, f = FetchOutcome.reject e0 ∧ e = e0) ∨
    nonJsonEscape f e ∨ parseErrorEscape f e := by
  have catchCase : ∀ e0 : JsError, applyCatch (Except.error e0) = Except.error e →
      e.message = TIMEOUT_MESSAGE ∨ e.message = CORS_MESSAGE ∨ e = e0 := by
    intro e0 he0
    simp only [applyCatch] at he0
    by_cases h1 : e0.name = "AbortError"
    · rw [if_pos h1] at he0
      cases he0
      exact Or.inl rfl
    · rw [if_neg h1] at he0
      by_cases h2 : e0.name = "TypeError" ∧ strIncludes e0.message "fetch" = true
      · rw [if_pos h2] at he0
        cases he0
        exact Or.inr (Or.inl rfl)
      · rw [if_neg h2] at he0
        cases he0
        exact Or.inr (Or.inr rfl)
  rcases f with e0 | ⟨ok, status, statusText, contentType, bodyText, json⟩
  · -- fetch rejected
    have he0 : makeOrchestratorRequestTry (FetchOutcome.reject e0) =
        Except.error e0 := rfl
    rw [makeOrchestratorRequest, he0] at h
    rcases catchCase e0 h with hc | hc | hc
    · exact Or.inl hc
    · exact Or.inr (Or.inl hc)
    · exact Or.inr (Or.inr (Or.inr (Or.inl ⟨e0, rfl, hc⟩)))
  · rw [makeOrchestratorRequest] at h
    rw [show makeOrchestratorRequestTry
        (FetchOutcome.resp ok status statusText contentType bodyText json) =
        (if !contentTypeOk contentType then
          Except.error (nonJsonError bodyText)
        else
          match json with
          | .error pe => .error pe
          | .ok b =>
            if !ok then
              Except.error ⟨"Error", errorMessageFor status statusText b⟩
            else .ok b) from rfl] at h
    by_cases hct : contentTypeOk contentType = true
    · rw [hct] at h
      simp only [Bool.not_true, Bool.false_eq_true, if_false] at h
      rcases json with pe | b
      · -- JSON parse failure
        rcases catchCase pe h with hc | hc | hc
        · exact Or.inl hc
        · exact Or.inr (Or.inl hc)
        · exact Or.inr (Or.inr (Or.inr (Or.inr (Or.inr
            ⟨ok, status, statusText, contentType, bodyText, pe, rfl, hc⟩))))
      · rcases ok with _ | _
        · -- non-ok status: server rejection
          simp only [Bool.not_false, if_true] at h
          rcases catchCase _ h with hc | hc | hc
          · exact Or.inl hc
          · exact Or.inr (Or.inl hc)
          · exact Or.inr (Or.inr (Or.inl
              ⟨false, status, statusText, contentType, bodyText, b, rfl,
                by rw [hc]⟩))
        · -- ok status: no failure is surfaced
          simp only [Bool.not_true, Bool.false_eq_true, if_false,
            applyCatch] at h
          exact Except.noConfusion h
    · -- missing or non-JSON content type: the raw-text error escapes
      simp only [Bool.not_eq_true] at hct
      rw [hct] at h
      simp only [Bool.not_false, if_true] at h
      rcases catchCase _ h with hc | hc | hc
      · exact Or.inl hc
      · exact Or.inr (Or.inl hc)
      · exact Or.inr (Or.inr (Or.inr (Or.inr (Or.inl
          ⟨ok, status, statusText, contentType, bodyText, json, rfl, hc⟩))))

/-- Claim C8 amended witness: an aborted request is surfaced with the
fixed timeout message. -/
theorem transport_failures_classified_witness :
    makeOrchestratorRequest (FetchOutcome.reject ⟨"AbortError", "aborted"⟩) =
      Except.error ⟨"Error", TIMEOUT_MESSAGE⟩ ∧
    (JsError.message ⟨"Error", TIMEOUT_MESSAGE⟩ = TIMEOUT_MESSAGE ∨
      JsError.message ⟨"Error", TIMEOUT_MESSAGE⟩ = CORS_MESSAGE ∨
      specServerRejected (FetchOutcome.reject ⟨"AbortError", "aborted"⟩)
        ⟨"Error", TIMEOUT_MESSAGE⟩ ∨
      (∃ e0, FetchOutcome.reject ⟨"AbortError", "aborted"⟩ =
          FetchOutcome.reject e0 ∧ (⟨"Error", TIMEOUT_MESSAGE⟩ : JsError) = e0) ∨
      nonJsonEscape (FetchOutcome.reject ⟨"AbortError", "aborted"⟩)
        ⟨"Error", TIMEOUT_MESSAGE⟩ ∨
      parseErrorEscape (FetchOutcome.reject ⟨"AbortError", "aborted"⟩)
        ⟨"Error", TIMEOUT_MESSAGE⟩) :=
  ⟨by decide,
    transport_failures_classified (FetchOutcome.reject ⟨"AbortError", "aborted"⟩)
      ⟨"Error", TIMEOUT_MESSAGE⟩ (by decide)⟩

/- ========== Notification endpoint (src/notifications.js, 15-40) ========== -/

/-- The fields of an inbound notification the endpoint validates. -/
structure Notif where
  type : Option JsVal
  message : Option JsVal
  deriving DecidableEq, Repr

/-- The value returned by `handleNotificationEndpoint`. -/
structure NotifResult where
  ok : Bool
  error : Option String
  message : Option String
  deriving DecidableEq, Repr

/-- Embedding of `handleNotificationEndpoint` (src/notifications.js,
lines 15-40): a falsy `type` or `message` field is rejected with the
invalid-structure error; otherwise the event is routed to the downstream
handler (an explicit oracle: `Except.error m` models a thrown exception
with message `m`), whose exception is captured into the error result;
the function itself never throws. -/
def handleNotificationEndpoint (n : Notif) (downstream : Except String Unit) :
    NotifResult :=
  if !optTruthy n.type || !optTruthy n.message then
    { ok := false, error := some "Invalid notification structure", message := none }
  else
    match downstream with
    | .error m => { ok := false, error := some m, message := none }
    | .ok _ =>
      { ok := true, error := none,
        message := some "Notification processed successfully" }

/-- A notification with a valid type but an empty (present, falsy)
message field. -/
def emptyMessageNotif : Notif :=
  { type := some (vStr "BALANCE_UPDATED"), message := some (vStr "") }

/-- Claim C10 counterexample: an event whose `message` field is present
but empty is rejected with the invalid-structure error even though
neither field is missing, so the claimed reject-iff-missing equivalence
fails. -/
theorem notif_missing_iff_counterexample :
    ¬((handleNotificationEndpoint emptyMessageNotif (Except.ok ()) =
        { ok := false, error := some "Invalid notification structure",
          message := none }) ↔
      (emptyMessageNotif.type = none ∨ emptyMessageNotif.message = none)) := by
  decide

/-- Claim C10 (amended): `handleNotificationEndpoint` never throws; it
returns the invalid-structure error exactly on a falsy (missing or
otherwise empty) `type` or `message` field, and otherwise returns the
success result or an error result capturing the downstream exception
message. -/
theorem notif_endpoint_validation (n : Notif) (d : Except String Unit) :
    ((optTruthy n.type = false ∨ optTruthy n.message = false) →
      handleNotificationEndpoint n d =
        { ok := false, error := some "Invalid notification structure",
          message := none }) ∧
    (optTruthy n.type = true → optTruthy n.message = true →
      handleNotificationEndpoint n d =
        (match d with
         | .error m => { ok := false, error := some m, message := none }
         | .ok _ =>
           { ok := true, error := none,
             message := some "Notification processed successfully" })) := by
  constructor
  · intro hfalsy
    rcases hfalsy with hf | hf <;>
      simp [handleNotificationEndpoint, hf]
  · intro ht hm
    simp [handleNotificationEndpoint, ht, hm]

/-- Claim C10 amended witness: the theorem applied to a falsy-message
event and to a fully valid event. -/
theorem notif_endpoint_validation_witness :
    handleNotificationEndpoint emptyMessageNotif (Except.ok ()) =
      { ok := false, error := some "Invalid notification structure",
        message := none } ∧
    handleNotificationEndpoint
      { type := some (vStr "BUNDLER_CREATED"), message := some (vStr "done") }
      (Except.ok ()) =
      { ok := true, error := none,
        message := some "Notification processed successfully" } :=
  ⟨(notif_endpoint_validation emptyMessageNotif (Except.ok ())).1
      (Or.inr (by decide)),
    (notif_endpoint_validation
      { type := some (vStr "BUNDLER_CREATED"), message := some (vStr "done") }
      (Except.ok ())).2 (by decide) (by decide)⟩

/-- Claim C6: after `disconnectWallet` returns on a session with an
active dev-wallet poll timer and an active bundler progress timer, both
interval timers are still armed — the function resets the identity and
subscriptions but never clears either timer, contradicting the required
cancellation on disconnect.  (The orphaned poll ticks then no-op only
because `currentUser` is null.) -/
theorem disconnect_leaves_timers_armed :
    (disconnectWallet activeSession).devWalletPollInterval = some 20000 ∧
    (disconnectWallet activeSession).bundlerProgressInterval = some 90000 ∧
    (disconnectWallet activeSession).currentUser = none ∧
    stopDevWalletPolling (disconnectWallet activeSession)
      ≠ disconnectWallet activeSession := by
  refine ⟨rfl, rfl, rfl, ?_⟩
  intro h
  have := congrArg AppState.devWalletPollInterval h
  simp [stopDevWalletPolling, disconnectWallet, activeSession] at this
theorem merge_status_derived_witness :
    optTruthy emptyRec.dev_wallet_status = false ∧
    ((mergeUserData emptyRec
        { dev_public_key := some (vStr "K")
          dev_wallet_status := none
          dev_wallet_ready_in_seconds := none
          others := fun _ => none }).dev_wallet_status = some (vStr "ready") ↔
      optTruthy (mergeUserData emptyRec
        { dev_public_key := some (vStr "K")
          dev_wallet_status := none
          dev_wallet_ready_in_seconds := none
          others := fun _ => none }).dev_public_key = true) :=
  ⟨by decide, merge_status_derived_when_not_supplied _ _ (by decide) (by decide)⟩

